import Mathlib

/-!
Verification of the queue/worker subsystem of the amazon_ai_queue repository.

The Python sources under `src/app/` are shallowly embedded as executable Lean
definitions.  The Redis list backing the queue is a `List TaskData` whose index 0
is the Redis head (the LPUSH end); `rpush` appends at the tail and `brpop` pops
from the tail, exactly as in Redis.  Key/value records with TTL are modelled as
maps `Nat → Option _` (TTL expiry is not modelled; no claim depends on it).
Timestamps are abstract `Nat` values passed explicitly where the source calls
`datetime.utcnow()`.  Task ids, generated in the source from
`client_id`, a timestamp and a random uuid suffix (collision-resistant by
design, spec §4.1), are modelled as fresh naturals drawn from a counter.
-/

/-- The serialized task pushed onto the Redis list by
`QueueManager.add_task` (src/app/queue_manager.py:38-46).  The payload dict is
kept as an opaque association list of string fields. -/
structure TaskData where
  task_id : Nat
  type : String
  client_id : String
  data : List (String × String)
  priority : String
  created_at : Nat
  status : String
deriving Repr, DecidableEq

/-- Queue position value stored inside a TaskStatus record.  The source stores
a JSON number at enqueue time (`add_task`, src/app/queue_manager.py:58) but the
JSON string "0" at dequeue time (`get_next_task`, src/app/queue_manager.py:83),
so both shapes are kept distinct. -/
inductive QueuePos where
  | posInt (n : Nat)
  | posStr (s : String)
deriving Repr, DecidableEq

/-- The TaskStatus record written under `amazon:status:<task_id>`
(src/app/queue_manager.py:55-65, 80-90, 114-123).  Fields absent from a given
write are `none`, mirroring absent JSON keys. -/
structure StatusData where
  status : String
  created_at : Option Nat := none
  started_at : Option Nat := none
  completed_at : Option Nat := none
  queue_position : Option QueuePos := none
deriving Repr, DecidableEq

/-- The TaskResult record written under `amazon:result:<task_id>` by
`QueueManager.save_result` (src/app/queue_manager.py:98-111). -/
structure ResultData where
  task_id : Nat
  client_id : String
  results : List (String × String)
  completed_at : Nat
  status : String
deriving Repr, DecidableEq

/-- The slice of Redis state owned by `QueueManager`: the pending list
`amazon:queue:tasks`, the status and result key spaces, the processed counter
(`_update_stats`), and the fresh-id counter modelling uuid generation. -/
structure QMState where
  taskQueue : List TaskData
  statusStore : Nat → Option StatusData
  resultStore : Nat → Option ResultData
  totalProcessed : Nat
  counter : Nat

/-- The empty store: no pending tasks, no status or result records. -/
def initQM : QMState :=
  { taskQueue := []
    statusStore := fun _ => none
    resultStore := fun _ => none
    totalProcessed := 0
    counter := 0 }

/-- Redis LPUSH: insert at the head (index 0) of the list. -/
def lpush (l : List TaskData) (x : TaskData) : List TaskData := x :: l

/-- Redis RPUSH: append at the tail of the list. -/
def rpush (l : List TaskData) (x : TaskData) : List TaskData := l ++ [x]

/-- Redis BRPOP: pop from the tail of the list, or `none` when the list stays
empty for the whole timeout (src/app/queue_manager.py:73). -/
def brpop (l : List TaskData) : Option (TaskData × List TaskData) :=
  match l.getLast? with
  | some x => some (x, l.dropLast)
  | none => none

/-- `QueueManager.get_queue_position` (src/app/queue_manager.py:164-174):
scan the pending list from the Redis head and return the 1-based index of the
task, or 0 when absent. -/
def get_queue_position (l : List TaskData) (t : Nat) : Nat :=
  go l 1
where
  go : List TaskData → Nat → Nat
  | [], _ => 0
  | x :: xs, i => if x.task_id = t then i else go xs (i + 1)

/-- `QueueManager.add_task` (src/app/queue_manager.py:34-68): build the task
record with status "queued", LPUSH it for priority "high" else RPUSH, then
store a TaskStatus record holding the position computed on the updated list.
Returns the new state together with the generated task id. -/
def add_task (qm : QMState) (task_type client_id : String)
    (data : List (String × String)) (priority : String) (now : Nat) :
    QMState × Nat :=
  let task_id := qm.counter
  let task : TaskData :=
    { task_id := task_id, type := task_type, client_id := client_id
      data := data, priority := priority, created_at := now, status := "queued" }
  let q' := if priority = "high" then lpush qm.taskQueue task
            else rpush qm.taskQueue task
  let status_data : StatusData :=
    { status := "queued", created_at := some now
      queue_position := some (.posInt (get_queue_position q' task_id)) }
  ({ qm with
      taskQueue := q'
      statusStore := fun t' => if t' = task_id then some status_data
                               else qm.statusStore t'
      counter := qm.counter + 1 }, task_id)

/-- `QueueManager.get_next_task` (src/app/queue_manager.py:70-94): BRPOP with a
30s timeout; `none` on timeout, otherwise overwrite the task's status record
with status "processing", a start timestamp and queue_position "0", and return
the task. -/
def get_next_task (qm : QMState) (now : Nat) : Option TaskData × QMState :=
  match brpop qm.taskQueue with
  | some (task, q') =>
      let status_data : StatusData :=
        { status := "processing", started_at := some now
          queue_position := some (.posStr "0") }
      (some task,
       { qm with
          taskQueue := q'
          statusStore := fun t' => if t' = task.task_id then some status_data
                                   else qm.statusStore t' })
  | none => (none, qm)

/-- `QueueManager.save_result` (src/app/queue_manager.py:96-128): write the
TaskResult record and overwrite the status record, both with status
"completed" unconditionally — the `results` payload is never inspected.  Also
bumps the processed counter (`_update_stats`). -/
def save_result (qm : QMState) (task_id : Nat) (client_id : String)
    (results : List (String × String)) (now : Nat) : QMState :=
  let result_data : ResultData :=
    { task_id := task_id, client_id := client_id, results := results
      completed_at := now, status := "completed" }
  let status_data : StatusData :=
    { status := "completed", completed_at := some now }
  { qm with
      resultStore := fun t' => if t' = task_id then some result_data
                               else qm.resultStore t'
      statusStore := fun t' => if t' = task_id then some status_data
                               else qm.statusStore t'
      totalProcessed := qm.totalProcessed + 1 }

/-- `QueueManager._get_status_message` (src/app/queue_manager.py:151-162):
fixed mapping from status to a human-readable message with an "Unknown status"
default. -/
def get_status_message (status : StatusData) : String :=
  if status.status = "queued" then "Task is waiting in queue"
  else if status.status = "processing" then "Task is being processed"
  else if status.status = "completed" then "Task completed successfully"
  else if status.status = "failed" then "Task failed to process"
  else "Unknown status"

/-- Output of `QueueManager.get_result`: either the stored TaskResult record,
or the status-snapshot dict `{task_id, status, message, queue_position}`, or
`None` (src/app/queue_manager.py:130-149). -/
inductive GetResultOut where
  | resultRec (r : ResultData)
  | statusSnapshot (task_id : Nat) (status : String) (message : String)
      (queue_position : Option QueuePos)
  | notFound
deriving Repr, DecidableEq

/-- `QueueManager.get_result` (src/app/queue_manager.py:130-149): three-tier
lookup — TaskResult first, else a snapshot built from the TaskStatus record,
else not-found.  A total function: no input raises. -/
def get_result (qm : QMState) (t : Nat) : GetResultOut :=
  match qm.resultStore t with
  | some r => .resultRec r
  | none =>
    match qm.statusStore t with
    | some sd => .statusSnapshot t sd.status (get_status_message sd) sd.queue_position
    | none => .notFound

/-- `QueueManager.get_queue_size` (src/app/queue_manager.py:176-178). -/
def get_queue_size (qm : QMState) : Nat := qm.taskQueue.length

-- A concrete three-task scenario used to exercise the priority ordering:
-- two normal tasks followed by one high-priority task.

/-- State after enqueueing normal task A (id 0) into the empty store. -/
def qmA : QMState := (add_task initQM "product_analysis" "cA" [] "normal" 0).1

/-- State after additionally enqueueing normal task B (id 1). -/
def qmAB : QMState := (add_task qmA "product_analysis" "cB" [] "normal" 1).1

/-- State after additionally enqueueing high-priority task H (id 2). -/
def qmABH : QMState := (add_task qmAB "product_analysis" "cH" [] "high" 2).1

/-- First dequeue from the A,B,H scenario. -/
def deq1 : Option TaskData × QMState := get_next_task qmABH 10

/-- Second dequeue from the A,B,H scenario. -/
def deq2 : Option TaskData × QMState := get_next_task deq1.2 11

/-- Third dequeue from the A,B,H scenario. -/
def deq3 : Option TaskData × QMState := get_next_task deq2.2 12

/-- C1: enqueueing normal A (id 0), normal B (id 1), then high H (id 2) and
dequeuing three times yields B, A, H — the high-priority task, LPUSHed to the
head, is dequeued last because `get_next_task` BRPOPs from the tail, and the
normal tasks come out in reverse (LIFO) order.  The claimed order (H first,
then A before B) is therefore false on the code: `add_task` inserts high at
the head and normal at the tail, but dequeue pops tail-first, not head-first. -/
theorem C1_priority_inverted :
    (deq1.1.map TaskData.task_id = some 1) ∧
    (deq2.1.map TaskData.task_id = some 0) ∧
    (deq3.1.map TaskData.task_id = some 2) ∧
    (deq1.1.map TaskData.priority = some "normal") ∧
    (deq3.1.map TaskData.priority = some "high") := by
  refine ⟨rfl, rfl, rfl, rfl, rfl⟩

/-- C2: `save_result` called with a results dict carrying the worker's error
marker `{"error": ..., "status": "failed"}` (the exact dict synthesized at
src/app/main.py:222) still persists a TaskStatus of "completed" and a
TaskResult whose top-level status is "completed" — the results payload is
never inspected, so an error-marked result is left `completed`. -/
theorem C2_save_result_always_completed :
    ((save_result initQM 42 "client"
        [("error", "boom"), ("status", "failed")] 7).statusStore 42 =
      some { status := "completed", completed_at := some 7 }) ∧
    (((save_result initQM 42 "client"
        [("error", "boom"), ("status", "failed")] 7).resultStore 42).map
          ResultData.status = some "completed") := by
  refine ⟨rfl, rfl⟩

/-- C6: `get_result` is the three-tier lookup of src/app/queue_manager.py:130-149.
If a TaskResult record exists it is returned; otherwise, if a TaskStatus record
exists, the snapshot `{task_id, status, message, queue_position}` is returned;
otherwise `notFound` — the function is total, so no task_id (including a
never-issued one) raises. -/
theorem C6_get_result_three_tier (qm : QMState) (t : Nat) :
    (∀ r, qm.resultStore t = some r → get_result qm t = .resultRec r) ∧
    (qm.resultStore t = none → ∀ sd, qm.statusStore t = some sd →
      get_result qm t =
        .statusSnapshot t sd.status (get_status_message sd) sd.queue_position) ∧
    (qm.resultStore t = none → qm.statusStore t = none →
      get_result qm t = .notFound) := by
  refine ⟨fun r hr => ?_, fun hr sd hs => ?_, fun hr hs => ?_⟩
  · simp [get_result, hr]
  · simp [get_result, hr, hs]
  · simp [get_result, hr, hs]

/-- C6 witness: the three tiers evaluated at concrete stores — the never-issued
id 99 on the empty store yields `notFound`, a queued task yields its snapshot,
and a saved result is returned as stored. -/
theorem C6_get_result_three_tier_witness :
    get_result initQM 99 = .notFound ∧
    get_result qmA 0 =
      .statusSnapshot 0 "queued" "Task is waiting in queue"
        (some (.posInt 1)) ∧
    (∃ r, get_result (save_result initQM 5 "c" [("ok", "1")] 3) 5 =
      .resultRec r) := by
  refine ⟨(C6_get_result_three_tier initQM 99).2.2 rfl rfl, ?_, ?_⟩
  · have h := (C6_get_result_three_tier qmA 0).2.1 rfl
      { status := "queued", created_at := some 0
        queue_position := some (.posInt 1) } rfl
    simpa [get_status_message] using h
  · exact ⟨_, (C6_get_result_three_tier
      (save_result initQM 5 "c" [("ok", "1")] 3) 5).1 _ rfl⟩

/-- C8: `get_next_task` (src/app/queue_manager.py:70-94) returns `none` and
leaves the state unchanged when nothing is in the pending list for the whole
timeout (a timeout is not an error — the function is total), and on a
successful pop it writes the popped task's status record to "processing" with
the start timestamp stamped and queue_position "0" before returning the task. -/
theorem C8_dequeue_semantics (qm : QMState) (now : Nat) :
    (qm.taskQueue = [] → get_next_task qm now = (none, qm)) ∧
    (∀ task q', brpop qm.taskQueue = some (task, q') →
      (get_next_task qm now).1 = some task ∧
      (get_next_task qm now).2.statusStore task.task_id =
        some { status := "processing", started_at := some now
               queue_position := some (.posStr "0") } ∧
      (get_next_task qm now).2.taskQueue = q') := by
  constructor
  · intro h
    simp [get_next_task, brpop, h]
  · intro task q' hpop
    simp [get_next_task, hpop]

/-- C8 witness: on the empty store the dequeue times out to `none`, and on the
one-task store `qmA` the pop returns task 0 marked "processing" with a start
time and position "0". -/
theorem C8_dequeue_semantics_witness :
    get_next_task initQM 4 = (none, initQM) ∧
    (get_next_task qmA 4).1.map TaskData.task_id = some 0 ∧
    (get_next_task qmA 4).2.statusStore 0 =
      some { status := "processing", started_at := some 4
             queue_position := some (.posStr "0") } := by
  have h1 := (C8_dequeue_semantics initQM 4).1 rfl
  have h2 := (C8_dequeue_semantics qmA 4).2
    { task_id := 0, type := "product_analysis", client_id := "cA", data := []
      priority := "normal", created_at := 0, status := "queued" } [] rfl
  exact ⟨h1, by rw [h2.1]; rfl, h2.2.1⟩

/-! System traces.  The worker loop (src/app/main.py:173-228) holds the task
returned by `get_next_task` until it records a result for it, and there is a
single worker (spec §5), so a system state is the store plus the optionally
held task, and a trace interleaves enqueues, dequeues and result saves. -/

/-- Store state plus the single worker's held task (dequeued, result not yet
saved). -/
structure SysState where
  qm : QMState
  worker : Option TaskData

/-- The initial system state: empty store, idle worker. -/
def initState : SysState := { qm := initQM, worker := none }

/-- One observable operation of the queue subsystem: an enqueue via
`add_task`, a worker dequeue via `get_next_task`, or the worker saving the
held task's result via `save_result`. -/
inductive Step where
  | enqueue (task_type client_id : String) (data : List (String × String))
      (priority : String) (now : Nat)
  | dequeue (now : Nat)
  | saveRes (results : List (String × String)) (now : Nat)

/-- Execute one step; also emit the list of (task_id, status) pairs persisted
to the status store by that step, in write order. -/
def execStep (s : SysState) : Step → SysState × List (Nat × String)
  | .enqueue ty cid d pr now =>
      ({ s with qm := (add_task s.qm ty cid d pr now).1 },
       [((add_task s.qm ty cid d pr now).2, "queued")])
  | .dequeue now =>
      match s.worker with
      | some _ => (s, [])
      | none =>
        match get_next_task s.qm now with
        | (some task, qm') =>
            ({ qm := qm', worker := some task }, [(task.task_id, "processing")])
        | (none, qm') => ({ qm := qm', worker := none }, [])
  | .saveRes results now =>
      match s.worker with
      | some task =>
          ({ qm := save_result s.qm task.task_id task.client_id results now
             worker := none },
           [(task.task_id, "completed")])
      | none => (s, [])

/-- Run a list of steps. -/
def execSteps (s : SysState) : List Step → SysState
  | [] => s
  | st :: rest => execSteps (execStep s st).1 rest

/-- All status writes emitted along a trace, in order. -/
def traceWrites (s : SysState) : List Step → List (Nat × String)
  | [] => []
  | st :: rest => (execStep s st).2 ++ traceWrites (execStep s st).1 rest

/-- The status values written for one task id, extracted from a write list. -/
def writesFor (t : Nat) (l : List (Nat × String)) : List String :=
  l.filterMap (fun p => if p.1 = t then some p.2 else none)

/-- The sequence of status values persisted for task `t` along a trace. -/
def statusHistory (t : Nat) (s : SysState) (steps : List Step) : List String :=
  writesFor t (traceWrites s steps)

/-- Whether a task id occurs in the pending list. -/
def taskInQueue (q : List TaskData) (t : Nat) : Bool :=
  q.any (fun td => td.task_id == t)

/-- Whether the worker currently holds the task with this id. -/
def workerHolds (w : Option TaskData) (t : Nat) : Bool :=
  match w with
  | some td => td.task_id == t
  | none => false

/-- Lifecycle phase of a task id in a system state: 0 = never admitted,
1 = pending, 2 = dequeued and being processed, 3 = result saved. -/
def phase (s : SysState) (t : Nat) : Nat :=
  if (s.qm.resultStore t).isSome then 3
  else if workerHolds s.worker t then 2
  else if taskInQueue s.qm.taskQueue t then 1
  else 0

/-- The status values a task in the given phase can still have written for it,
in order. -/
def phaseSuffix : Nat → List String
  | 0 => ["queued", "processing", "completed"]
  | 1 => ["processing", "completed"]
  | 2 => ["completed"]
  | _ => []

/-- Well-formedness of a system state: ids in use are below the freshness
counter, the pending list has no duplicate ids, the held task is not also
pending, and neither pending nor held tasks have a saved result yet. -/
structure WfState (s : SysState) : Prop where
  queue_lt : ∀ td ∈ s.qm.taskQueue, td.task_id < s.qm.counter
  worker_lt : ∀ td, s.worker = some td → td.task_id < s.qm.counter
  result_lt : ∀ t : Nat, (s.qm.resultStore t).isSome → t < s.qm.counter
  queue_nodup : (s.qm.taskQueue.map TaskData.task_id).Nodup
  worker_notin : ∀ td, s.worker = some td →
    taskInQueue s.qm.taskQueue td.task_id = false
  queue_noresult : ∀ td ∈ s.qm.taskQueue, s.qm.resultStore td.task_id = none
  worker_noresult : ∀ td, s.worker = some td →
    s.qm.resultStore td.task_id = none

theorem brpop_nil : brpop [] = none := rfl

theorem brpop_concat (l : List TaskData) (x : TaskData) :
    brpop (l ++ [x]) = some (x, l) := by
  simp [brpop, List.getLast?_concat, List.dropLast_concat]

theorem get_next_task_pop (qm : QMState) (now : Nat) (l : List TaskData)
    (x : TaskData) (hq : qm.taskQueue = l ++ [x]) :
    get_next_task qm now =
      (some x,
       { qm with
          taskQueue := l
          statusStore := fun t' => if t' = x.task_id then
              some { status := "processing", started_at := some now
                     queue_position := some (.posStr "0") }
            else qm.statusStore t' }) := by
  simp [get_next_task, hq, brpop_concat]

theorem get_next_task_nil (qm : QMState) (now : Nat)
    (hq : qm.taskQueue = []) : get_next_task qm now = (none, qm) := by
  simp [get_next_task, hq, brpop_nil]

theorem writesFor_nil (t : Nat) : writesFor t [] = [] := rfl

theorem writesFor_single (t i : Nat) (lab : String) :
    writesFor t [(i, lab)] = if i = t then [lab] else [] := by
  by_cases h : i = t <;> simp [writesFor, h]

theorem taskInQueue_nil (t : Nat) : taskInQueue [] t = false := rfl

theorem taskInQueue_append (l₁ l₂ : List TaskData) (t : Nat) :
    taskInQueue (l₁ ++ l₂) t = (taskInQueue l₁ t || taskInQueue l₂ t) := by
  simp [taskInQueue]

theorem taskInQueue_cons (x : TaskData) (q : List TaskData) (t : Nat) :
    taskInQueue (x :: q) t = ((x.task_id == t) || taskInQueue q t) := by
  simp [taskInQueue]

theorem taskInQueue_singleton (x : TaskData) (t : Nat) :
    taskInQueue [x] t = (x.task_id == t) := by
  simp [taskInQueue]

theorem phase_congr (s s' : SysState) (t : Nat)
    (hres : s'.qm.resultStore t = s.qm.resultStore t)
    (hw : workerHolds s'.worker t = workerHolds s.worker t)
    (hq : taskInQueue s'.qm.taskQueue t = taskInQueue s.qm.taskQueue t) :
    phase s' t = phase s t := by
  simp [phase, hres, hw, hq]

theorem result_none_of_ge (s : SysState) (h : WfState s) (t : Nat)
    (ht : s.qm.counter ≤ t) : s.qm.resultStore t = none := by
  cases hr : s.qm.resultStore t with
  | none => rfl
  | some r =>
      have := h.result_lt t (by simp [hr])
      omega

theorem workerHolds_false_of_ge (s : SysState) (h : WfState s) (t : Nat)
    (ht : s.qm.counter ≤ t) : workerHolds s.worker t = false := by
  cases hw : s.worker with
  | none => rfl
  | some td =>
      have hlt := h.worker_lt td hw
      have hne : td.task_id ≠ t := by omega
      simp [workerHolds, hne]

theorem taskInQueue_false_of_ge (s : SysState) (h : WfState s) (t : Nat)
    (ht : s.qm.counter ≤ t) : taskInQueue s.qm.taskQueue t = false := by
  rw [taskInQueue, List.any_eq_false]
  intro td hm
  have hlt := h.queue_lt td hm
  have hne : td.task_id ≠ t := by omega
  simp [hne]

theorem wf_init : WfState initState := by
  refine ⟨?_, ?_, ?_, ?_, ?_, ?_, ?_⟩ <;>
    first
      | (intro td hm; simp [initState, initQM] at hm)
      | simp [initState, initQM, taskInQueue]

theorem execStep_enqueue (s : SysState) (ty cid : String)
    (d : List (String × String)) (pr : String) (now : Nat) :
    execStep s (.enqueue ty cid d pr now) =
      ({ s with qm := (add_task s.qm ty cid d pr now).1 },
       [(s.qm.counter, "queued")]) := rfl

theorem execStep_dequeue_busy (s : SysState) (now : Nat) (td : TaskData)
    (hw : s.worker = some td) : execStep s (.dequeue now) = (s, []) := by
  obtain ⟨qm, w⟩ := s
  cases w with
  | none => simp at hw
  | some td' => rfl

theorem execStep_dequeue_nil (s : SysState) (now : Nat) (hw : s.worker = none)
    (hq : s.qm.taskQueue = []) : execStep s (.dequeue now) = (s, []) := by
  obtain ⟨qm, w⟩ := s
  cases w with
  | some td => simp at hw
  | none =>
      simp only [execStep]
      rw [get_next_task_nil qm now hq]

theorem execStep_dequeue_pop (s : SysState) (now : Nat) (l : List TaskData)
    (x : TaskData) (hw : s.worker = none) (hq : s.qm.taskQueue = l ++ [x]) :
    execStep s (.dequeue now) =
      ({ qm := { s.qm with
            taskQueue := l
            statusStore := fun t' => if t' = x.task_id then
                some { status := "processing", started_at := some now
                       queue_position := some (.posStr "0") }
              else s.qm.statusStore t' }
         worker := some x }, [(x.task_id, "processing")]) := by
  obtain ⟨qm, w⟩ := s
  cases w with
  | some td => simp at hw
  | none =>
      simp only [execStep]
      rw [get_next_task_pop qm now l x hq]

theorem execStep_save_idle (s : SysState) (results : List (String × String))
    (now : Nat) (hw : s.worker = none) :
    execStep s (.saveRes results now) = (s, []) := by
  obtain ⟨qm, w⟩ := s
  cases w with
  | some td => simp at hw
  | none => rfl

theorem execStep_save_held (s : SysState) (results : List (String × String))
    (now : Nat) (td : TaskData) (hw : s.worker = some td) :
    execStep s (.saveRes results now) =
      ({ qm := save_result s.qm td.task_id td.client_id results now
         worker := none }, [(td.task_id, "completed")]) := by
  obtain ⟨qm, w⟩ := s
  cases w with
  | none => simp at hw
  | some td' => cases hw; rfl

theorem add_task_counter (qm : QMState) (ty cid : String)
    (d : List (String × String)) (pr : String) (now : Nat) :
    ((add_task qm ty cid d pr now).1).counter = qm.counter + 1 := rfl

theorem add_task_result (qm : QMState) (ty cid : String)
    (d : List (String × String)) (pr : String) (now : Nat) :
    ((add_task qm ty cid d pr now).1).resultStore = qm.resultStore := rfl

theorem add_task_queue (qm : QMState) (ty cid : String)
    (d : List (String × String)) (pr : String) (now : Nat) :
    ((add_task qm ty cid d pr now).1).taskQueue =
      if pr = "high" then
        { task_id := qm.counter, type := ty, client_id := cid, data := d
          priority := pr, created_at := now, status := "queued" } :: qm.taskQueue
      else qm.taskQueue ++
        [{ task_id := qm.counter, type := ty, client_id := cid, data := d
           priority := pr, created_at := now, status := "queued" }] := rfl

theorem phase_eq_zero (s : SysState) (t : Nat) (h1 : s.qm.resultStore t = none)
    (h2 : workerHolds s.worker t = false)
    (h3 : taskInQueue s.qm.taskQueue t = false) : phase s t = 0 := by
  simp [phase, h1, h2, h3]

theorem phase_eq_one (s : SysState) (t : Nat) (h1 : s.qm.resultStore t = none)
    (h2 : workerHolds s.worker t = false)
    (h3 : taskInQueue s.qm.taskQueue t = true) : phase s t = 1 := by
  simp [phase, h1, h2, h3]

theorem phase_eq_two (s : SysState) (t : Nat) (h1 : s.qm.resultStore t = none)
    (h2 : workerHolds s.worker t = true) : phase s t = 2 := by
  simp [phase, h1, h2]

theorem phase_eq_three (s : SysState) (t : Nat)
    (h1 : (s.qm.resultStore t).isSome = true) : phase s t = 3 := by
  simp [phase, h1]

theorem execStep_enqueue_fst (s : SysState) (ty cid : String)
    (d : List (String × String)) (pr : String) (now : Nat) :
    (execStep s (.enqueue ty cid d pr now)).1 =
      { s with qm := (add_task s.qm ty cid d pr now).1 } := by
  rw [execStep_enqueue]

theorem execStep_enqueue_snd (s : SysState) (ty cid : String)
    (d : List (String × String)) (pr : String) (now : Nat) :
    (execStep s (.enqueue ty cid d pr now)).2 = [(s.qm.counter, "queued")] := by
  rw [execStep_enqueue]

theorem execStep_dequeue_pop_fst (s : SysState) (now : Nat) (l : List TaskData)
    (x : TaskData) (hw : s.worker = none) (hq : s.qm.taskQueue = l ++ [x]) :
    (execStep s (.dequeue now)).1 =
      { qm := { s.qm with
          taskQueue := l
          statusStore := fun t' => if t' = x.task_id then
              some { status := "processing", started_at := some now
                     queue_position := some (.posStr "0") }
            else s.qm.statusStore t' }
        worker := some x } := by
  rw [execStep_dequeue_pop s now l x hw hq]

theorem execStep_dequeue_pop_snd (s : SysState) (now : Nat) (l : List TaskData)
    (x : TaskData) (hw : s.worker = none) (hq : s.qm.taskQueue = l ++ [x]) :
    (execStep s (.dequeue now)).2 = [(x.task_id, "processing")] := by
  rw [execStep_dequeue_pop s now l x hw hq]

theorem execStep_save_held_fst (s : SysState) (results : List (String × String))
    (now : Nat) (td : TaskData) (hw : s.worker = some td) :
    (execStep s (.saveRes results now)).1 =
      { qm := save_result s.qm td.task_id td.client_id results now
        worker := none } := by
  rw [execStep_save_held s results now td hw]

theorem execStep_save_held_snd (s : SysState) (results : List (String × String))
    (now : Nat) (td : TaskData) (hw : s.worker = some td) :
    (execStep s (.saveRes results now)).2 = [(td.task_id, "completed")] := by
  rw [execStep_save_held s results now td hw]

theorem wf_enqueue (s : SysState) (h : WfState s) (ty cid : String)
    (d : List (String × String)) (pr : String) (now : Nat) :
    WfState (execStep s (.enqueue ty cid d pr now)).1 := by
  have hfresh : ∀ td ∈ s.qm.taskQueue, td.task_id ≠ s.qm.counter := by
    intro td hm
    have hlt := h.queue_lt td hm
    omega
  have hnotmem : s.qm.counter ∉ s.qm.taskQueue.map TaskData.task_id := by
    intro hmem
    rcases List.mem_map.mp hmem with ⟨td, hm, hid⟩
    exact hfresh td hm hid
  rw [execStep_enqueue_fst]
  constructor
  case queue_lt =>
    intro td hm
    simp only [add_task_queue] at hm
    simp only [add_task_counter]
    split at hm
    · rcases List.mem_cons.mp hm with rfl | hm'
      · exact Nat.lt_succ_self _
      · have := h.queue_lt td hm'
        omega
    · rcases List.mem_append.mp hm with hm' | hm'
      · have := h.queue_lt td hm'
        omega
      · rcases List.mem_singleton.mp hm' with rfl
        exact Nat.lt_succ_self _
  case worker_lt =>
    intro td hw
    have hw2 : s.worker = some td := hw
    have := h.worker_lt td hw2
    simp only [add_task_counter]
    omega
  case result_lt =>
    intro t hsome
    have hs2 : (s.qm.resultStore t).isSome = true := hsome
    have := h.result_lt t hs2
    simp only [add_task_counter]
    omega
  case queue_nodup =>
    simp only [add_task_queue]
    split
    · simp only [List.map_cons, List.nodup_cons]
      exact ⟨hnotmem, h.queue_nodup⟩
    · rw [List.map_append, List.nodup_append]
      refine ⟨h.queue_nodup, List.nodup_singleton _, ?_⟩
      intro a ha hb
      simp only [List.map_cons, List.map_nil, List.mem_singleton] at hb
      subst hb
      exact hnotmem ha
  case worker_notin =>
    intro td hw
    have hw2 : s.worker = some td := hw
    have hne : s.qm.counter ≠ td.task_id := by
      have := h.worker_lt td hw2
      omega
    have hold := h.worker_notin td hw2
    simp only [add_task_queue]
    split
    · rw [taskInQueue_cons, hold]
      simp [beq_false_of_ne hne]
    · rw [taskInQueue_append, hold, taskInQueue_singleton]
      simp [beq_false_of_ne hne]
  case queue_noresult =>
    intro td hm
    simp only [add_task_queue] at hm
    have hcr : s.qm.resultStore s.qm.counter = none :=
      result_none_of_ge s h s.qm.counter (Nat.le_refl _)
    split at hm
    · rcases List.mem_cons.mp hm with rfl | hm'
      · exact hcr
      · exact h.queue_noresult td hm'
    · rcases List.mem_append.mp hm with hm' | hm'
      · exact h.queue_noresult td hm'
      · rcases List.mem_singleton.mp hm' with rfl
        exact hcr
  case worker_noresult =>
    intro td hw
    have hw2 : s.worker = some td := hw
    exact h.worker_noresult td hw2

theorem wf_dequeue (s : SysState) (h : WfState s) (now : Nat) :
    WfState (execStep s (.dequeue now)).1 := by
  cases hw : s.worker with
  | some td =>
      rw [execStep_dequeue_busy s now td hw]
      exact h
  | none =>
      rcases List.eq_nil_or_concat s.qm.taskQueue with hq | ⟨l, x, hq⟩
      · rw [execStep_dequeue_nil s now hw hq]
        exact h
      · rw [List.concat_eq_append] at hq
        rw [execStep_dequeue_pop_fst s now l x hw hq]
        have hxmem : x ∈ s.qm.taskQueue := by
          rw [hq]; simp
        have hnodup := h.queue_nodup
        rw [hq, List.map_append, List.nodup_append] at hnodup
        constructor
        case queue_lt =>
          intro td hm
          exact h.queue_lt td (by rw [hq]; exact List.mem_append_left _ hm)
        case worker_lt =>
          intro td hw'
          have hw2 : some x = some td := hw'
          cases hw2
          exact h.queue_lt x hxmem
        case result_lt =>
          intro t hsome
          exact h.result_lt t hsome
        case queue_nodup =>
          exact hnodup.1
        case worker_notin =>
          intro td hw'
          have hw2 : some x = some td := hw'
          cases hw2
          rw [taskInQueue, List.any_eq_false]
          intro td' hm'
          have hne : td'.task_id ≠ x.task_id := by
            intro heq
            exact hnodup.2.2 (List.mem_map_of_mem _ hm') (by simp [heq])
          simp [hne]
        case queue_noresult =>
          intro td hm
          exact h.queue_noresult td (by rw [hq]; exact List.mem_append_left _ hm)
        case worker_noresult =>
          intro td hw'
          have hw2 : some x = some td := hw'
          cases hw2
          exact h.queue_noresult x hxmem

theorem wf_save (s : SysState) (h : WfState s)
    (results : List (String × String)) (now : Nat) :
    WfState (execStep s (.saveRes results now)).1 := by
  cases hw : s.worker with
  | none =>
      rw [execStep_save_idle s results now hw]
      exact h
  | some td =>
      rw [execStep_save_held_fst s results now td hw]
      have htd_lt := h.worker_lt td hw
      have htd_notin := h.worker_notin td hw
      constructor
      case queue_lt =>
        intro td' hm
        exact h.queue_lt td' hm
      case worker_lt =>
        intro td' hw'
        have hw2 : (none : Option TaskData) = some td' := hw'
        cases hw2
      case result_lt =>
        intro t hsome
        by_cases hxt : t = td.task_id
        · subst hxt
          exact htd_lt
        · have hold : (s.qm.resultStore t).isSome = true := by
            simpa [save_result, hxt] using hsome
          exact h.result_lt t hold
      case queue_nodup =>
        exact h.queue_nodup
      case worker_notin =>
        intro td' hw'
        have hw2 : (none : Option TaskData) = some td' := hw'
        cases hw2
      case queue_noresult =>
        intro td' hm
        have hne : td'.task_id ≠ td.task_id := by
          intro heq
          rw [taskInQueue, List.any_eq_false] at htd_notin
          exact htd_notin td' hm (by simp [heq])
        have hold : s.qm.resultStore td'.task_id = none :=
          h.queue_noresult td' hm
        simp [save_result, hne, hold]
      case worker_noresult =>
        intro td' hw'
        have hw2 : (none : Option TaskData) = some td' := hw'
        cases hw2

theorem wf_execStep (s : SysState) (st : Step) (h : WfState s) :
    WfState (execStep s st).1 := by
  cases st with
  | enqueue ty cid d pr now => exact wf_enqueue s h ty cid d pr now
  | dequeue now => exact wf_dequeue s h now
  | saveRes results now => exact wf_save s h results now

theorem writes_phase_enqueue (s : SysState) (h : WfState s) (t : Nat)
    (ty cid : String) (d : List (String × String)) (pr : String) (now : Nat) :
    (writesFor t (execStep s (.enqueue ty cid d pr now)).2 = [] ∧
      phase (execStep s (.enqueue ty cid d pr now)).1 t = phase s t) ∨
    (∃ lab, writesFor t (execStep s (.enqueue ty cid d pr now)).2 = [lab] ∧
      phaseSuffix (phase s t) =
        lab :: phaseSuffix (phase (execStep s (.enqueue ty cid d pr now)).1 t)) := by
  rw [execStep_enqueue_snd, execStep_enqueue_fst]
  by_cases ht : t = s.qm.counter
  · right
    refine ⟨"queued", ?_, ?_⟩
    · rw [writesFor_single]
      simp [ht]
    · have hp0 : phase s t = 0 :=
        phase_eq_zero s t (result_none_of_ge s h t (by omega))
          (workerHolds_false_of_ge s h t (by omega))
          (taskInQueue_false_of_ge s h t (by omega))
      have hp1 : phase { s with qm := (add_task s.qm ty cid d pr now).1 } t = 1 := by
        apply phase_eq_one
        · exact result_none_of_ge s h t (by omega)
        · exact workerHolds_false_of_ge s h t (by omega)
        · simp only [add_task_queue]
          subst ht
          by_cases hpr : pr = "high"
          · simp [hpr, taskInQueue_cons]
          · simp [hpr, taskInQueue_append, taskInQueue_singleton]
      rw [hp0, hp1]
      rfl
  · left
    constructor
    · rw [writesFor_single]
      have hne : ¬ s.qm.counter = t := fun hh => ht hh.symm
      simp [hne]
    · apply phase_congr
      · rfl
      · rfl
      · simp only [add_task_queue]
        have hne : s.qm.counter ≠ t := fun hh => ht hh.symm
        by_cases hpr : pr = "high"
        · simp [hpr, taskInQueue_cons, beq_false_of_ne hne]
        · simp [hpr, taskInQueue_append, taskInQueue_singleton,
            beq_false_of_ne hne]

theorem writes_phase_dequeue (s : SysState) (h : WfState s) (t : Nat)
    (now : Nat) :
    (writesFor t (execStep s (.dequeue now)).2 = [] ∧
      phase (execStep s (.dequeue now)).1 t = phase s t) ∨
    (∃ lab, writesFor t (execStep s (.dequeue now)).2 = [lab] ∧
      phaseSuffix (phase s t) =
        lab :: phaseSuffix (phase (execStep s (.dequeue now)).1 t)) := by
  cases hw : s.worker with
  | some td =>
      rw [execStep_dequeue_busy s now td hw]
      exact Or.inl ⟨rfl, rfl⟩
  | none =>
      rcases List.eq_nil_or_concat s.qm.taskQueue with hq | ⟨l, x, hq⟩
      · rw [execStep_dequeue_nil s now hw hq]
        exact Or.inl ⟨rfl, rfl⟩
      · rw [List.concat_eq_append] at hq
        rw [execStep_dequeue_pop_snd s now l x hw hq,
            execStep_dequeue_pop_fst s now l x hw hq]
        have hxmem : x ∈ s.qm.taskQueue := by
          rw [hq]; simp
        by_cases hxt : t = x.task_id
        · subst hxt
          right
          refine ⟨"processing", ?_, ?_⟩
          · rw [writesFor_single]
            simp
          · have hres : s.qm.resultStore x.task_id = none :=
              h.queue_noresult x hxmem
            have hp1 : phase s x.task_id = 1 := by
              apply phase_eq_one s x.task_id hres
              · rw [hw]
                rfl
              · rw [hq, taskInQueue_append, taskInQueue_singleton]
                simp
            have hp2 : phase
                { qm := { s.qm with
                    taskQueue := l
                    statusStore := fun t' => if t' = x.task_id then
                        some { status := "processing", started_at := some now
                               queue_position := some (.posStr "0") }
                      else s.qm.statusStore t' }
                  worker := some x } x.task_id = 2 := by
              apply phase_eq_two
              · exact hres
              · simp [workerHolds]
            rw [hp1, hp2]
            rfl
        · left
          constructor
          · rw [writesFor_single]
            have hne : ¬ x.task_id = t := fun hh => hxt hh.symm
            simp [hne]
          · apply phase_congr
            · rfl
            · show workerHolds (some x) t = workerHolds s.worker t
              rw [hw]
              show (x.task_id == t) = false
              exact beq_false_of_ne (fun hh => hxt hh.symm)
            · show taskInQueue l t = taskInQueue s.qm.taskQueue t
              rw [hq, taskInQueue_append, taskInQueue_singleton,
                  beq_false_of_ne (fun hh => hxt hh.symm)]
              simp

theorem writes_phase_save (s : SysState) (h : WfState s) (t : Nat)
    (results : List (String × String)) (now : Nat) :
    (writesFor t (execStep s (.saveRes results now)).2 = [] ∧
      phase (execStep s (.saveRes results now)).1 t = phase s t) ∨
    (∃ lab, writesFor t (execStep s (.saveRes results now)).2 = [lab] ∧
      phaseSuffix (phase s t) =
        lab :: phaseSuffix (phase (execStep s (.saveRes results now)).1 t)) := by
  cases hw : s.worker with
  | none =>
      rw [execStep_save_idle s results now hw]
      exact Or.inl ⟨rfl, rfl⟩
  | some td =>
      rw [execStep_save_held_snd s results now td hw,
          execStep_save_held_fst s results now td hw]
      by_cases hxt : t = td.task_id
      · subst hxt
        right
        refine ⟨"completed", ?_, ?_⟩
        · rw [writesFor_single]
          simp
        · have hres : s.qm.resultStore td.task_id = none :=
            h.worker_noresult td hw
          have hp2 : phase s td.task_id = 2 := by
            apply phase_eq_two s td.task_id hres
            rw [hw]
            simp [workerHolds]
          have hp3 : phase
              { qm := save_result s.qm td.task_id td.client_id results now
                worker := none } td.task_id = 3 := by
            apply phase_eq_three
            simp [save_result]
          rw [hp2, hp3]
          rfl
      · left
        constructor
        · rw [writesFor_single]
          have hne : ¬ td.task_id = t := fun hh => hxt hh.symm
          simp [hne]
        · apply phase_congr
          · show (save_result s.qm td.task_id td.client_id results now).resultStore t =
              s.qm.resultStore t
            simp [save_result, hxt]
          · show workerHolds none t = workerHolds s.worker t
            rw [hw]
            show false = (td.task_id == t)
            rw [beq_false_of_ne (fun hh => hxt hh.symm)]
          · rfl

theorem writes_phase (s : SysState) (st : Step) (t : Nat) (h : WfState s) :
    (writesFor t (execStep s st).2 = [] ∧
      phase (execStep s st).1 t = phase s t) ∨
    (∃ lab, writesFor t (execStep s st).2 = [lab] ∧
      phaseSuffix (phase s t) = lab :: phaseSuffix (phase (execStep s st).1 t)) := by
  cases st with
  | enqueue ty cid d pr now => exact writes_phase_enqueue s h t ty cid d pr now
  | dequeue now => exact writes_phase_dequeue s h t now
  | saveRes results now => exact writes_phase_save s h t results now

theorem statusHistory_cons (t : Nat) (s : SysState) (st : Step)
    (rest : List Step) :
    statusHistory t s (st :: rest) =
      writesFor t (execStep s st).2 ++ statusHistory t (execStep s st).1 rest := by
  simp [statusHistory, traceWrites, writesFor, List.filterMap_append]

theorem statusHistory_sublist (steps : List Step) :
    ∀ (s : SysState) (t : Nat), WfState s →
      (statusHistory t s steps).Sublist (phaseSuffix (phase s t)) := by
  induction steps with
  | nil =>
      intro s t h
      simp [statusHistory, traceWrites, writesFor]
  | cons st rest ih =>
      intro s t h
      have hwf := wf_execStep s st h
      rw [statusHistory_cons]
      rcases writes_phase s st t h with ⟨hw, hp⟩ | ⟨lab, hw, hp⟩
      · rw [hw, List.nil_append, ← hp]
        exact ih (execStep s st).1 t hwf
      · rw [hw, hp]
        exact List.Sublist.cons₂ lab (ih (execStep s st).1 t hwf)

/-- C7: along every trace of enqueues (`add_task`), worker dequeues
(`get_next_task`) and result saves (`save_result`, invoked by the worker only
for the task it holds, src/app/main.py:176-224), the sequence of status values
persisted for any task id is a subsequence of [queued, processing, completed]
or of [queued, processing, failed]: no status ever moves backwards and no task
re-enters "queued".  (The source's `save_result` in fact only ever writes
"completed", so the left disjunct always holds.) -/
theorem C7_status_monotonicity (steps : List Step) (t : Nat) :
    (statusHistory t initState steps).Sublist
      ["queued", "processing", "completed"] ∨
    (statusHistory t initState steps).Sublist
      ["queued", "processing", "failed"] := by
  left
  have h := statusHistory_sublist steps initState t wf_init
  have hp : phase initState t = 0 := rfl
  rw [hp] at h
  exact h

theorem frame_step (s : SysState) (st : Step) (t : Nat)
    (h : ∀ p ∈ (execStep s st).2, p.1 ≠ t) :
    (execStep s st).1.qm.statusStore t = s.qm.statusStore t ∧
    (execStep s st).1.qm.resultStore t = s.qm.resultStore t := by
  cases st with
  | enqueue ty cid d pr now =>
      rw [execStep_enqueue_snd] at h
      have hne : s.qm.counter ≠ t := h (s.qm.counter, "queued") (by simp)
      have hne2 : t ≠ s.qm.counter := fun hh => hne hh.symm
      rw [execStep_enqueue_fst]
      constructor
      · show ((add_task s.qm ty cid d pr now).1).statusStore t = s.qm.statusStore t
        simp [add_task, hne2]
      · exact rfl
  | dequeue now =>
      cases hw : s.worker with
      | some td =>
          rw [execStep_dequeue_busy s now td hw]
          exact ⟨rfl, rfl⟩
      | none =>
          rcases List.eq_nil_or_concat s.qm.taskQueue with hq | ⟨l, x, hq⟩
          · rw [execStep_dequeue_nil s now hw hq]
            exact ⟨rfl, rfl⟩
          · rw [List.concat_eq_append] at hq
            rw [execStep_dequeue_pop_snd s now l x hw hq] at h
            have hne : x.task_id ≠ t := h (x.task_id, "processing") (by simp)
            have hne2 : t ≠ x.task_id := fun hh => hne hh.symm
            rw [execStep_dequeue_pop_fst s now l x hw hq]
            constructor
            · show (if t = x.task_id then _ else s.qm.statusStore t) =
                s.qm.statusStore t
              simp [hne2]
            · exact rfl
  | saveRes results now =>
      cases hw : s.worker with
      | none =>
          rw [execStep_save_idle s results now hw]
          exact ⟨rfl, rfl⟩
      | some td =>
          rw [execStep_save_held_snd s results now td hw] at h
          have hne : td.task_id ≠ t := h (td.task_id, "completed") (by simp)
          have hne2 : t ≠ td.task_id := fun hh => hne hh.symm
          rw [execStep_save_held_fst s results now td hw]
          constructor
          · show (save_result s.qm td.task_id td.client_id results now).statusStore t =
              s.qm.statusStore t
            simp [save_result, hne2]
          · show (save_result s.qm td.task_id td.client_id results now).resultStore t =
              s.qm.resultStore t
            simp [save_result, hne2]

theorem traceWrites_cons (s : SysState) (st : Step) (rest : List Step) :
    traceWrites s (st :: rest) =
      (execStep s st).2 ++ traceWrites (execStep s st).1 rest := rfl

theorem frame_steps (steps : List Step) :
    ∀ (s : SysState) (t : Nat),
      (∀ p ∈ traceWrites s steps, p.1 ≠ t) →
      (execSteps s steps).qm.statusStore t = s.qm.statusStore t ∧
      (execSteps s steps).qm.resultStore t = s.qm.resultStore t := by
  induction steps with
  | nil =>
      intro s t _
      exact ⟨rfl, rfl⟩
  | cons st rest ih =>
      intro s t h
      rw [traceWrites_cons] at h
      have h1 : ∀ p ∈ (execStep s st).2, p.1 ≠ t := by
        intro p hp
        exact h p (List.mem_append_left _ hp)
      have h2 : ∀ p ∈ traceWrites (execStep s st).1 rest, p.1 ≠ t := by
        intro p hp
        exact h p (List.mem_append_right _ hp)
      have hstep := frame_step s st t h1
      have hrest := ih (execStep s st).1 t h2
      refine ⟨?_, ?_⟩
      · rw [show execSteps s (st :: rest) = execSteps (execStep s st).1 rest from rfl,
            hrest.1, hstep.1]
      · rw [show execSteps s (st :: rest) = execSteps (execStep s st).1 rest from rfl,
            hrest.2, hstep.2]

/-- C10: the queue_position stored in a task's TaskStatus record is computed
exactly once, at enqueue time (`add_task`, src/app/queue_manager.py:54-65), and
never refreshed while the task waits: (1) any trace of operations that never
writes the task's own status record — enqueues of other tasks, dequeues of
other tasks, saves of other tasks — leaves the stored record (hence the
position returned by `get_result`) byte-identical; (2) dequeuing the task
itself overwrites the position with the string "0"
(src/app/queue_manager.py:83); (3) saving its result drops the
queue_position key entirely (src/app/queue_manager.py:114-117). -/
theorem C10_queue_position_frozen :
    (∀ (s : SysState) (steps : List Step) (t : Nat) (sd : StatusData),
        s.qm.statusStore t = some sd →
        s.qm.resultStore t = none →
        (∀ p ∈ traceWrites s steps, p.1 ≠ t) →
        (execSteps s steps).qm.statusStore t = some sd ∧
        (execSteps s steps).qm.resultStore t = none ∧
        get_result (execSteps s steps).qm t =
          .statusSnapshot t sd.status (get_status_message sd)
            sd.queue_position) ∧
    (∀ (qm : QMState) (now : Nat) (l : List TaskData) (x : TaskData),
        qm.taskQueue = l ++ [x] →
        ((get_next_task qm now).2.statusStore x.task_id).map
          StatusData.queue_position = some (some (.posStr "0"))) ∧
    (∀ (qm : QMState) (tid : Nat) (cid : String)
        (results : List (String × String)) (now : Nat),
        ((save_result qm tid cid results now).statusStore tid).map
          StatusData.queue_position = some none) := by
  refine ⟨?_, ?_, ?_⟩
  · intro s steps t sd hs hr hfr
    have hf := frame_steps steps s t hfr
    have hst : (execSteps s steps).qm.statusStore t = some sd := by
      rw [hf.1, hs]
    have hre : (execSteps s steps).qm.resultStore t = none := by
      rw [hf.2, hr]
    exact ⟨hst, hre, by simp [get_result, hst, hre]⟩
  · intro qm now l x hq
    rw [get_next_task_pop qm now l x hq]
    simp
  · intro qm tid cid results now
    simp [save_result]

/-- Concrete two-task state used by the C10 witness: normal task A (id 0) then
normal task B (id 1) enqueued into the empty store. -/
def sysAB : SysState :=
  execSteps initState
    [.enqueue "product_analysis" "cA" [] "normal" 0,
     .enqueue "keyword_analysis" "cB" [] "normal" 1]

/-- The TaskStatus record written for task A at enqueue time: position 1. -/
def sdA : StatusData :=
  { status := "queued", created_at := some 0
    queue_position := some (.posInt 1) }

/-- C10 witness: with A and B pending, dequeuing (which pops B, not A) leaves
A's stored record — including its original enqueue-time position 1 — intact,
and `get_result` still reports position 1 for A; the popped task B gets
position "0"; saving a result drops the position. -/
theorem C10_queue_position_frozen_witness :
    (execSteps sysAB [.dequeue 5]).qm.statusStore 0 = some sdA ∧
    get_result (execSteps sysAB [.dequeue 5]).qm 0 =
      .statusSnapshot 0 "queued" "Task is waiting in queue"
        (some (.posInt 1)) ∧
    ((get_next_task sysAB.qm 5).2.statusStore 1).map
      StatusData.queue_position = some (some (.posStr "0")) ∧
    ((save_result sysAB.qm 0 "cA" [] 9).statusStore 0).map
      StatusData.queue_position = some none := by
  have h1 := C10_queue_position_frozen.1 sysAB [.dequeue 5] 0 sdA rfl rfl
    (by decide)
  refine ⟨h1.1, ?_, ?_, ?_⟩
  · have h2 := h1.2.2
    simpa [sdA, get_status_message] using h2
  · exact C10_queue_position_frozen.2.1 sysAB.qm 5
      [{ task_id := 0, type := "product_analysis", client_id := "cA"
         data := [], priority := "normal", created_at := 0, status := "queued" }]
      { task_id := 1, type := "keyword_analysis", client_id := "cB"
        data := [], priority := "normal", created_at := 1, status := "queued" }
      rfl
  · exact C10_queue_position_frozen.2.2 sysAB.qm 0 "cA" [] 9

/-! Embedding of the analysis handlers (src/app/agent.py) and the scraping
collaborator result shape (src/app/apify_client.py). -/

/-- A product record as consumed by `AmazonAgent._prepare_product_context`
(src/app/agent.py:196-208); absent dict keys are `none`.  Field values are
kept as strings since only their formatted text reaches the prompt. -/
structure Product where
  title : Option String := none
  price : Option String := none
  rating : Option String := none
  review_count : Option String := none
  description : Option String := none
deriving Repr, DecidableEq

/-- Python substring containment (`pat in s`) for a non-empty pattern:
splitting on the pattern yields more than one part iff it occurs. -/
def containsSub (s pat : String) : Bool :=
  (s.splitOn pat).length != 1

/-- Lines contributed by one product to the prompt context
(src/app/agent.py:199-207); the description line appears only when the
description is present and non-empty (Python truthiness), truncated to 200
characters. -/
def productLines (i : Nat) (p : Product) : List String :=
  ["Product " ++ toString (i + 1) ++ ":",
   " Title: " ++ p.title.getD "N/A",
   " Price: " ++ p.price.getD "N/A",
   " Rating: " ++ p.rating.getD "N/A",
   " Reviews: " ++ p.review_count.getD "N/A"] ++
  (match p.description with
   | some d => if d != "" then [" Description: " ++ d.take 200 ++ "..."] else []
   | none => []) ++
  [""]

/-- `AmazonAgent._prepare_product_context` (src/app/agent.py:196-208): format
the first 10 products into the prompt context. -/
def prepare_product_context (products : List Product) : String :=
  String.intercalate "\n"
    (((products.take 10).enum.map (fun ip => productLines ip.1 ip.2)).flatten)

/-- `AmazonAgent._build_analysis_prompt` (src/app/agent.py:210-232). -/
def build_analysis_prompt (context analysis_type : String) : String :=
  if analysis_type = "product_analysis" then
    "\nAnalyze these Amazon products for investment potential:\n\n" ++ context ++
      "\n\nProvide:\n1. Market demand assessment\n2. Competition analysis\n" ++
      "3. Profit margin estimation\n4. Risk factors\n" ++
      "5. Investment recommendation (Yes/No/Maybe)\n6. Key insights (bullet points)\n" ++
      "\nFormat as structured JSON if possible.\n"
  else
    "\n" ++ context ++ "\nProvide detailed analysis with actionable insights.\n"

/-- Behavior of one call to the DeepSeek HTTP collaborator as observed inside
`AmazonAgent._get_deepseek_analysis` (src/app/agent.py:155-194): the api key
may be unset; otherwise the POST may return 200 with a well-formed body
(content extracted), 200 with a malformed or non-JSON body (parsing raises,
caught by the except with message e), a non-200 status, or raise a network
exception with message e. -/
inductive DSOutcome where
  | noKey
  | ok (content : String)
  | malformed (e : String)
  | httpError (code : Nat)
  | raisesNet (e : String)
deriving Repr, DecidableEq

/-- `AmazonAgent._get_deepseek_analysis` (src/app/agent.py:155-194): a total
function — every collaborator failure is caught inside the function and turned
into an error STRING; it never raises to its caller. -/
def get_deepseek_analysis (ds : DSOutcome) (context analysis_type : String) :
    String :=
  let _prompt := build_analysis_prompt context analysis_type
  match ds with
  | .noKey => "Analysis service not configured."
  | .ok content => content
  | .malformed e => "Request failed: " ++ e
  | .httpError code => "API Error: " ++ toString code
  | .raisesNet e => "Request failed: " ++ e

/-- The keyword list of `AmazonAgent._extract_insights`
(src/app/agent.py:240). -/
def insightKeywords : List String :=
  ["insight", "key finding", "important", "critical", "recommend"]

/-- `AmazonAgent._extract_insights` (src/app/agent.py:234-244): keep stripped
lines containing an insight keyword; if none, fall back to the first three
raw lines longer than 20 characters. -/
def extract_insights (analysis : String) : List String :=
  let lines := analysis.splitOn "\n"
  let insights := (lines.map String.trim).filter
    (fun line => insightKeywords.any (fun k => containsSub line.toLower k))
  if insights.isEmpty then
    (lines.filter (fun line => line != "" && decide (line.length > 20))).take 3
  else insights

/-- The recommendations dict built by
`AmazonAgent._generate_recommendations` (src/app/agent.py:246-258). -/
structure Recommendations where
  investment_advice : String
  next_steps : List String
  key_insights : List String
  risk_level : String
deriving Repr, DecidableEq

/-- `AmazonAgent._extract_investment_advice` (src/app/agent.py:260-270). -/
def extract_investment_advice (analysis : String) : String :=
  let lower := analysis.toLower
  if containsSub lower "not recommended" || containsSub lower "avoid" then
    "Not Recommended"
  else if containsSub lower "highly recommended" ||
      containsSub lower "excellent" then
    "Highly Recommended"
  else if containsSub lower "recommended" || containsSub lower "good" then
    "Recommended"
  else
    "Needs Further Research"

/-- `AmazonAgent._assess_risk_level` (src/app/agent.py:272-282). -/
def assess_risk_level (analysis : String) : String :=
  let lower := analysis.toLower
  if ["high risk", "very risky", "dangerous"].any (containsSub lower) then
    "High"
  else if ["moderate risk", "medium risk"].any (containsSub lower) then
    "Medium"
  else if ["low risk", "safe", "stable"].any (containsSub lower) then
    "Low"
  else
    "Unknown"

/-- `AmazonAgent._generate_recommendations` (src/app/agent.py:246-258). -/
def generate_recommendations (analysis : String) (insights : List String) :
    Recommendations :=
  { investment_advice := extract_investment_advice analysis
    next_steps :=
      ["Review competition more thoroughly", "Check supplier reliability",
       "Calculate shipping and storage costs", "Set up price monitoring"]
    key_insights := insights.take 5
    risk_level := assess_risk_level analysis }

/-- The result dict of `AmazonAgent.analyze_products` (src/app/agent.py:24-37);
absent keys are `none`. -/
structure ProductAnalysisResult where
  status : String
  error : Option String := none
  products_analyzed : Option Nat := none
  analysis : Option String := none
  insights : Option (List String) := none
  recommendations : Option Recommendations := none
  timestamp : Option Nat := none
deriving Repr, DecidableEq

/-- `AmazonAgent.analyze_products` (src/app/agent.py:15-37).  The `except`
branch returning {"status": "error"} is unreachable when only the AI-scoring
collaborator misbehaves, because `_get_deepseek_analysis` catches all its own
exceptions and returns an error string; with well-typed product records the
try body is total, so the embedding is the try body, parameterised over the
collaborator behavior `ds`. -/
def analyze_products (ds : DSOutcome) (products : List Product) (now : Nat) :
    ProductAnalysisResult :=
  let context := prepare_product_context products
  let analysis := get_deepseek_analysis ds context "product_analysis"
  let insights := extract_insights analysis
  { status := "success"
    products_analyzed := some products.length
    analysis := some analysis
    insights := some insights
    recommendations := some (generate_recommendations analysis insights)
    timestamp := some now }

/-- The result dict of `ApifyClient.scrape_amazon_products`
(src/app/apify_client.py:41-185).  Success results always carry
total_products and scraper_used (src/app/apify_client.py:145-158); failure
results carry success=false, an error and an empty product list. -/
structure ScrapeResult where
  success : Bool
  error : Option String := none
  products : List Product := []
  total_products : Nat := 0
  scraper_used : String := "unknown"
  run_id : Option String := none
deriving Repr, DecidableEq

/-- The no-token failure result of `ApifyClient.scrape_amazon_products`
(src/app/apify_client.py:59-66). -/
def scrapeNoToken : ScrapeResult :=
  { success := false, error := some "APIFY_TOKEN not configured"
    products := [] }

/-- The scraping_stats sub-dict of `AmazonAgent.analyze_keyword`
(src/app/agent.py:107-110, 136-140). -/
structure ScrapeStats where
  products_found : Nat
  scraper_used : String
  run_id : Option String := none
deriving Repr, DecidableEq

/-- The result dict of `AmazonAgent.analyze_keyword` (src/app/agent.py:78-153);
the three return branches produce dicts with different keys, so absent keys
are `none`. -/
structure KeywordResult where
  status : String
  error : Option String := none
  message : Option String := none
  keyword : Option String := none
  client_id : Option String := none
  products_analyzed : Option Nat := none
  scraping_stats : Option ScrapeStats := none
  analysis : Option ProductAnalysisResult := none
  sample_products : Option (List Product) := none
  timestamp : Option Nat := none
deriving Repr, DecidableEq

/-- `AmazonAgent.analyze_keyword` (src/app/agent.py:78-153), parameterised
over the scraping collaborator's result and the AI collaborator's behavior:
a failed scrape returns the error branch (src/app/agent.py:90-96); a
successful but empty scrape returns the zero-result success branch
(src/app/agent.py:100-111); otherwise the products are analysed and the
combined dict returned (memory_manager failures are caught and ignored,
src/app/agent.py:117-129, so they do not affect the result). -/
def analyze_keyword (keyword client_id : String) (scrape : ScrapeResult)
    (ds : DSOutcome) (now : Nat) : KeywordResult :=
  if !scrape.success then
    { status := "error"
      error := some ("Scraping failed: " ++ scrape.error.getD "Unknown error")
      keyword := some keyword, client_id := some client_id }
  else if scrape.products.isEmpty then
    { status := "success"
      message := some "No products found for this keyword"
      keyword := some keyword, client_id := some client_id
      products_analyzed := some 0
      scraping_stats := some { products_found := 0
                               scraper_used := scrape.scraper_used } }
  else
    { status := "success"
      client_id := some client_id, keyword := some keyword
      scraping_stats := some { products_found := scrape.total_products
                               scraper_used := scrape.scraper_used
                               run_id := scrape.run_id }
      analysis := some (analyze_products ds scrape.products now)
      sample_products := some (scrape.products.take 3)
      timestamp := some now }

/-- A concrete one-product batch (the spec §8 example product). -/
def prodX : Product := { title := some "X", price := some "10" }

/-- C3 counterexample: with a one-product batch and the AI-scoring
collaborator raising for it, `analyze_products` returns status "success" —
not the claimed "completed" — and attaches the collaborator's error text as
the `analysis` string; the source builds no per-product score-50 /
"Research Further" fallback entries at all (no such strings occur in
src/app/agent.py). -/
theorem C3_counterexample :
    (analyze_products (.raisesNet "boom") [prodX] 3).status ≠ "completed" ∧
    (analyze_products (.raisesNet "boom") [prodX] 3).status = "success" ∧
    (analyze_products (.raisesNet "boom") [prodX] 3).analysis =
      some "Request failed: boom" := by
  refine ⟨by decide, rfl, rfl⟩

/-- C3 amended: handler isolation holds, but with this draft's result shape —
for every batch and every collaborator outcome (raising, malformed response,
HTTP error, missing key, or success), `analyze_products` returns status
"success" (never an error status: the collaborator cannot make the except
branch fire, since `_get_deepseek_analysis` catches everything internally),
with products_analyzed equal to the input length and no error field; no
per-product score=50 / "Research Further" fallback exists in the code. -/
theorem C3_amended_isolation (ds : DSOutcome) (products : List Product)
    (now : Nat) :
    (analyze_products ds products now).status = "success" ∧
    (analyze_products ds products now).products_analyzed =
      some products.length ∧
    (analyze_products ds products now).error = none :=
  ⟨rfl, rfl, rfl⟩

/-- C5 counterexample: a failed scrape — here the actual no-token failure
dict produced by `ApifyClient.scrape_amazon_products`
(src/app/apify_client.py:59-66) — makes `analyze_keyword` return an
error-status result, not the claimed success-status zero-product result. -/
theorem C5_counterexample :
    (analyze_keyword "usb hub" "c1" scrapeNoToken .noKey 0).status = "error" ∧
    (analyze_keyword "usb hub" "c1" scrapeNoToken .noKey 0).error =
      some "Scraping failed: APIFY_TOKEN not configured" :=
  ⟨rfl, rfl⟩

/-- C5 amended: only the empty SUCCESSFUL scrape is treated as a success with
zero products analyzed; a failed scrape (success = false) yields an
error-status result carrying the scrape error, contrary to the claim that
both cases are successful zero-result tasks. -/
theorem C5_empty_vs_failed_scrape (keyword client_id : String)
    (scrape : ScrapeResult) (ds : DSOutcome) (now : Nat) :
    (scrape.success = true → scrape.products = [] →
      (analyze_keyword keyword client_id scrape ds now).status = "success" ∧
      (analyze_keyword keyword client_id scrape ds now).products_analyzed =
        some 0 ∧
      (analyze_keyword keyword client_id scrape ds now).message =
        some "No products found for this keyword") ∧
    (scrape.success = false →
      (analyze_keyword keyword client_id scrape ds now).status = "error" ∧
      (analyze_keyword keyword client_id scrape ds now).error =
        some ("Scraping failed: " ++ scrape.error.getD "Unknown error")) := by
  constructor
  · intro hs hp
    refine ⟨?_, ?_, ?_⟩ <;> simp [analyze_keyword, hs, hp]
  · intro hs
    refine ⟨?_, ?_⟩ <;> simp [analyze_keyword, hs]

/-- C5 witness: the empty successful scrape (the dummy collaborator of
src/tests/conftest.py:64-65 returns exactly {success: True, products: []})
is reported as a zero-product success, and the no-token failed scrape as an
error. -/
theorem C5_empty_vs_failed_scrape_witness :
    ((analyze_keyword "kw" "c" { success := true } .noKey 0).status =
        "success" ∧
      (analyze_keyword "kw" "c" { success := true } .noKey 0).products_analyzed =
        some 0 ∧
      (analyze_keyword "kw" "c" { success := true } .noKey 0).message =
        some "No products found for this keyword") ∧
    ((analyze_keyword "kw" "c" scrapeNoToken .noKey 0).status = "error" ∧
      (analyze_keyword "kw" "c" scrapeNoToken .noKey 0).error =
        some "Scraping failed: APIFY_TOKEN not configured") := by
  refine ⟨(C5_empty_vs_failed_scrape "kw" "c" { success := true } .noKey 0).1
    rfl rfl, ?_⟩
  exact (C5_empty_vs_failed_scrape "kw" "c" scrapeNoToken .noKey 0).2 rfl

/-! Embedding of the worker dispatch (src/app/main.py:173-228).  main.py calls
three QueueManager methods that do not exist in src/app/queue_manager.py:
`update_task_status` (line 186), `save_task_result` (lines 204 and 218) and
`check_health`; only their callers appear under src, so the two the dispatch
needs are modelled from the spec below. -/

/-- Modelled from the spec: `QueueManager.update_task_status` is invoked at
src/app/main.py:186 but missing from src/app/queue_manager.py (its callers are
its only trace in src).  Spec §4.2 has the worker "mark `processing`" after a
successful dequeue and §3 has the TaskStatus record "superseded, not deleted,
on each transition", so the record's status field is set and the remaining
fields kept. -/
def update_task_status (qm : QMState) (t : Nat) (st : String) : QMState :=
  { qm with
      statusStore := fun t' => if t' = t then
          some { ((qm.statusStore t).getD { status := st }) with status := st }
        else qm.statusStore t' }

/-- Error marker of a result dict: the `error` key, as carried by the failure
results the worker synthesizes ({"error": ..., "status": "failed"},
src/app/main.py:201 and 222). -/
def hasErrorMarker (results : List (String × String)) : Bool :=
  results.any (fun p => p.1 == "error")

/-- Modelled from the spec: `QueueManager.save_task_result` is invoked at
src/app/main.py:204 and 218 but missing from src/app/queue_manager.py.  Spec
§4.1 `save_result(task_id, client_id, type, result)`: "writes the TaskResult,
transitions status to `completed` if `result` carries no error marker, else
`failed`". -/
def save_task_result (qm : QMState) (t : Nat) (client_id _task_type : String)
    (results : List (String × String)) (now : Nat) : QMState :=
  let st := if hasErrorMarker results then "failed" else "completed"
  { qm with
      resultStore := fun t' => if t' = t then
          some { task_id := t, client_id := client_id, results := results
                 completed_at := now, status := st }
        else qm.resultStore t'
      statusStore := fun t' => if t' = t then
          some { status := st, completed_at := some now }
        else qm.statusStore t' }

/-- Observable behavior of one awaited handler invocation
(src/app/main.py:192-199): the coroutine may complete with a results dict,
raise an exception carrying message `msg`, or never complete — the worker
wraps the await in no timeout, so a non-completing handler suspends the
dispatch indefinitely. -/
inductive HandlerOutcome where
  | completes (results : List (String × String))
  | raisesExc (msg : String)
  | hangs
deriving Repr, DecidableEq

/-- Per-call behavior of the two dispatched handlers. -/
structure WorkerEnv where
  productHandler : HandlerOutcome
  keywordHandler : HandlerOutcome
deriving Repr, DecidableEq

/-- Outcome of `process_next_task`: a normal return carrying the Python
boolean, or stuck forever awaiting a hanging handler for the given task id —
nothing after the await runs, so the state reached before the await is
final. -/
inductive ProcOutcome where
  | ret (processed : Bool) (qm : QMState)
  | stuck (qm : QMState) (tid : Nat)

/-- The store state reached by a dispatch outcome. -/
def ProcOutcome.finalQM : ProcOutcome → QMState
  | .ret _ qm => qm
  | .stuck qm _ => qm

/-- Whether the dispatch is suspended forever. -/
def ProcOutcome.isStuck : ProcOutcome → Bool
  | .ret _ _ => false
  | .stuck _ _ => true

/-- The awaited dispatch of src/app/main.py:191-224: a completing handler's
results are saved; a raising handler is caught by the inner except and the
synthesized {"error": str(e), "status": "failed"} dict is saved (both paths
return True); a hanging handler suspends the coroutine forever, so no save
runs. -/
def handle_outcome (h : HandlerOutcome) (qm : QMState) (task : TaskData)
    (now : Nat) : ProcOutcome :=
  match h with
  | .completes results =>
      .ret true (save_task_result qm task.task_id task.client_id task.type
        results now)
  | .raisesExc msg =>
      .ret true (save_task_result qm task.task_id task.client_id task.type
        [("error", msg), ("status", "failed")] now)
  | .hangs => .stuck qm task.task_id

/-- `process_next_task` (src/app/main.py:173-228): dequeue; on None return
False; otherwise mark processing (spec-modelled `update_task_status`),
dispatch on the task type — `product_analysis` and `keyword_analysis` to
their handlers, any other type to an immediate synthesized failure result
with no handler invoked — and save the outcome.  No timeout of any kind
wraps the handler awaits. -/
def process_next_task (env : WorkerEnv) (qm : QMState) (now : Nat) :
    ProcOutcome :=
  match get_next_task qm now with
  | (none, qm') => .ret false qm'
  | (some task, qm') =>
    let qm2 := update_task_status qm' task.task_id "processing"
    if task.type = "product_analysis" then
      handle_outcome env.productHandler qm2 task now
    else if task.type = "keyword_analysis" then
      handle_outcome env.keywordHandler qm2 task now
    else
      .ret true (save_task_result qm2 task.task_id task.client_id task.type
        [("error", "Unknown task type"), ("status", "failed")] now)

theorem get_next_task_resultStore (qm : QMState) (now : Nat) :
    ((get_next_task qm now).2).resultStore = qm.resultStore := by
  cases hbr : brpop qm.taskQueue with
  | none => simp [get_next_task, hbr]
  | some p =>
      obtain ⟨task, q'⟩ := p
      simp [get_next_task, hbr]

theorem get_next_task_isSome (qm : QMState) (now : Nat)
    (h : qm.taskQueue ≠ []) : ((get_next_task qm now).1).isSome = true := by
  rcases List.eq_nil_or_concat qm.taskQueue with hq | ⟨l, x, hq⟩
  · exact absurd hq h
  · rw [List.concat_eq_append] at hq
    rw [get_next_task_pop qm now l x hq]
    rfl

/-- C9: a dequeued task whose type is neither product_analysis nor
keyword_analysis gets an immediate synthesized failure result — persisted
status "failed" and a TaskResult carrying {"error": "Unknown task type",
"status": "failed"} — with no handler consulted (the outcome is identical
under every handler environment), the call returns normally with True (the
loop does not crash), the rest of the queue is untouched, and the next task
is dequeued on the following iteration. -/
theorem C9_unknown_type_immediate_failure (env : WorkerEnv) (qm : QMState)
    (now : Nat) (task : TaskData) (qm' : QMState)
    (hpop : get_next_task qm now = (some task, qm'))
    (h1 : task.type ≠ "product_analysis")
    (h2 : task.type ≠ "keyword_analysis") :
    process_next_task env qm now =
      .ret true (save_task_result
        (update_task_status qm' task.task_id "processing")
        task.task_id task.client_id task.type
        [("error", "Unknown task type"), ("status", "failed")] now) ∧
    ((process_next_task env qm now).finalQM.resultStore task.task_id).map
      ResultData.status = some "failed" ∧
    ((process_next_task env qm now).finalQM.resultStore task.task_id).map
      ResultData.results =
        some [("error", "Unknown task type"), ("status", "failed")] ∧
    ((process_next_task env qm now).finalQM.statusStore task.task_id).map
      StatusData.status = some "failed" ∧
    (∀ env' : WorkerEnv,
      process_next_task env' qm now = process_next_task env qm now) ∧
    (process_next_task env qm now).finalQM.taskQueue = qm'.taskQueue ∧
    (∀ now2 : Nat, qm'.taskQueue ≠ [] →
      ((get_next_task (process_next_task env qm now).finalQM now2).1).isSome =
        true) := by
  have heq : ∀ e : WorkerEnv, process_next_task e qm now =
      .ret true (save_task_result
        (update_task_status qm' task.task_id "processing")
        task.task_id task.client_id task.type
        [("error", "Unknown task type"), ("status", "failed")] now) := by
    intro e
    simp [process_next_task, hpop, h1, h2]
  have hqq : (process_next_task env qm now).finalQM.taskQueue =
      qm'.taskQueue := by
    rw [heq env]
    simp [ProcOutcome.finalQM, save_task_result, update_task_status]
  refine ⟨heq env, ?_, ?_, ?_, fun env' => by rw [heq env', heq env], hqq, ?_⟩
  · rw [heq env]
    simp [ProcOutcome.finalQM, save_task_result, hasErrorMarker]
  · rw [heq env]
    simp [ProcOutcome.finalQM, save_task_result, hasErrorMarker]
  · rw [heq env]
    simp [ProcOutcome.finalQM, save_task_result, hasErrorMarker]
  · intro now2 hne
    apply get_next_task_isSome
    rw [hqq]
    exact hne

/-- One unknown-type task (type "mystery") enqueued into the empty store. -/
def qmU : QMState := (add_task initQM "mystery" "cU" [] "normal" 0).1

/-- Handler environment in which both handlers hang — used to show outcomes
that must not depend on the handlers. -/
def envHang : WorkerEnv :=
  { productHandler := .hangs, keywordHandler := .hangs }

/-- C9 witness: processing the concrete "mystery" task records a failed
result with the Unknown-task-type error without consulting the (hanging)
handlers. -/
theorem C9_unknown_type_immediate_failure_witness :
    ((process_next_task envHang qmU 4).finalQM.resultStore 0).map
      ResultData.status = some "failed" ∧
    ((process_next_task envHang qmU 4).finalQM.resultStore 0).map
      ResultData.results =
        some [("error", "Unknown task type"), ("status", "failed")] ∧
    ((process_next_task envHang qmU 4).finalQM.statusStore 0).map
      StatusData.status = some "failed" ∧
    (∀ env' : WorkerEnv,
      process_next_task env' qmU 4 = process_next_task envHang qmU 4) := by
  have h := C9_unknown_type_immediate_failure envHang qmU 4
    { task_id := 0, type := "mystery", client_id := "cU", data := []
      priority := "normal", created_at := 0, status := "queued" }
    (get_next_task qmU 4).2 rfl (by decide) (by decide)
  exact ⟨h.2.1, h.2.2.1, h.2.2.2.1, h.2.2.2.2.1⟩

/-- One product_analysis task enqueued into the empty store. -/
def qmP : QMState := (add_task initQM "product_analysis" "cP" [] "normal" 0).1

/-- C4 counterexample: no wall-clock timeout wraps the handler awaits of
`process_next_task` (src/app/main.py:191-199 awaits the handlers bare, with
no asyncio.wait_for anywhere in the worker).  With the product handler
hanging, the dispatch is stuck forever: the task's persisted status remains
"processing" and no result — in particular no timeout-failure result — is
ever recorded, refuting the claim that a hanging handler's task is marked
failed with a timeout error. -/
theorem C4_counterexample :
    (process_next_task envHang qmP 7).isStuck = true ∧
    ((process_next_task envHang qmP 7).finalQM.statusStore 0).map
      StatusData.status = some "processing" ∧
    (process_next_task envHang qmP 7).finalQM.resultStore 0 = none := by
  refine ⟨rfl, rfl, rfl⟩

/-- C4 amended: the worker applies no per-handler wall-clock timeout, on
either dispatch branch (src/app/main.py:192-194 for product_analysis,
195-199 for keyword_analysis — both await their handler bare).  Whichever
handler the popped task dispatches to: if it raises, the inner except
converts the exception into a failed result carrying the error; if it never
completes, the dispatch stays suspended forever with the task in status
"processing" and the result store untouched — no timeout-failure result
exists in the worker (hard timeouts exist only inside the collaborators' own
HTTP calls, e.g. src/app/apify_client.py:96-119). -/
theorem C4_no_worker_timeout (env : WorkerEnv) (qm : QMState) (now : Nat)
    (task : TaskData) (qm' : QMState) (hh : HandlerOutcome)
    (hpop : get_next_task qm now = (some task, qm'))
    (hdisp : (task.type = "product_analysis" ∧ hh = env.productHandler) ∨
             (task.type = "keyword_analysis" ∧ hh = env.keywordHandler)) :
    (hh = .hangs →
      process_next_task env qm now =
        .stuck (update_task_status qm' task.task_id "processing")
          task.task_id ∧
      ((update_task_status qm' task.task_id "processing").statusStore
        task.task_id).map StatusData.status = some "processing" ∧
      (update_task_status qm' task.task_id "processing").resultStore
        task.task_id = qm.resultStore task.task_id) ∧
    (∀ msg, hh = .raisesExc msg →
      ((process_next_task env qm now).finalQM.resultStore task.task_id).map
        ResultData.status = some "failed" ∧
      ((process_next_task env qm now).finalQM.resultStore task.task_id).map
        ResultData.results = some [("error", msg), ("status", "failed")] ∧
      process_next_task env qm now = .ret true
        (save_task_result (update_task_status qm' task.task_id "processing")
          task.task_id task.client_id task.type
          [("error", msg), ("status", "failed")] now)) := by
  have hq2 : qm'.resultStore = qm.resultStore := by
    have h2 : (get_next_task qm now).2 = qm' := congrArg Prod.snd hpop
    rw [← h2]
    exact get_next_task_resultStore qm now
  have heq : process_next_task env qm now =
      handle_outcome hh (update_task_status qm' task.task_id "processing")
        task now := by
    rcases hdisp with ⟨hty, hhh⟩ | ⟨hty, hhh⟩
    · rw [hhh]
      simp [process_next_task, hpop, hty]
    · rw [hhh]
      have hne : task.type ≠ "product_analysis" := by
        rw [hty]
        decide
      simp [process_next_task, hpop, hty, hne]
  constructor
  · intro hhang
    rw [hhang] at heq
    have heq2 : process_next_task env qm now =
        .stuck (update_task_status qm' task.task_id "processing")
          task.task_id := by
      rw [heq]
      rfl
    refine ⟨heq2, ?_, ?_⟩
    · simp [update_task_status]
    · show qm'.resultStore task.task_id = qm.resultStore task.task_id
      rw [hq2]
  · intro msg hraise
    rw [hraise] at heq
    have heq2 : process_next_task env qm now = .ret true
        (save_task_result (update_task_status qm' task.task_id "processing")
          task.task_id task.client_id task.type
          [("error", msg), ("status", "failed")] now) := by
      rw [heq]
      rfl
    refine ⟨?_, ?_, heq2⟩
    · rw [heq2]
      simp [ProcOutcome.finalQM, save_task_result, hasErrorMarker]
    · rw [heq2]
      simp [ProcOutcome.finalQM, save_task_result, hasErrorMarker]

/-- One keyword_analysis task enqueued into the empty store. -/
def qmK : QMState := (add_task initQM "keyword_analysis" "cK" [] "normal" 0).1

/-- Handler environment in which both handlers raise — used to exercise the
exception-conversion side. -/
def envRaise : WorkerEnv :=
  { productHandler := .raisesExc "boom", keywordHandler := .raisesExc "boom" }

/-- C4 witness: a hanging product handler and a hanging keyword handler each
leave their concrete one-task dispatch stuck in "processing", and a raising
product handler yields a recorded failed result. -/
theorem C4_no_worker_timeout_witness :
    (process_next_task envHang qmP 7 =
      .stuck (update_task_status (get_next_task qmP 7).2 0 "processing") 0 ∧
     ((update_task_status (get_next_task qmP 7).2 0 "processing").statusStore
       0).map StatusData.status = some "processing") ∧
    (process_next_task envHang qmK 8 =
      .stuck (update_task_status (get_next_task qmK 8).2 0 "processing") 0 ∧
     ((update_task_status (get_next_task qmK 8).2 0 "processing").statusStore
       0).map StatusData.status = some "processing") ∧
    ((process_next_task envRaise qmP 9).finalQM.resultStore 0).map
      ResultData.status = some "failed" := by
  have hp := (C4_no_worker_timeout envHang qmP 7
    { task_id := 0, type := "product_analysis", client_id := "cP", data := []
      priority := "normal", created_at := 0, status := "queued" }
    (get_next_task qmP 7).2 .hangs rfl (Or.inl ⟨rfl, rfl⟩)).1 rfl
  have hk := (C4_no_worker_timeout envHang qmK 8
    { task_id := 0, type := "keyword_analysis", client_id := "cK", data := []
      priority := "normal", created_at := 0, status := "queued" }
    (get_next_task qmK 8).2 .hangs rfl (Or.inr ⟨rfl, rfl⟩)).1 rfl
  have hr := ((C4_no_worker_timeout envRaise qmP 9
    { task_id := 0, type := "product_analysis", client_id := "cP", data := []
      priority := "normal", created_at := 0, status := "queued" }
    (get_next_task qmP 9).2 (.raisesExc "boom") rfl
    (Or.inl ⟨rfl, rfl⟩)).2 "boom" rfl).1
  exact ⟨⟨hp.1, hp.2.1⟩, ⟨hk.1, hk.2.1⟩, hr⟩
